import Mathlib

/-!
# Verification of the medigram-pipeline ingestion core

Shallow embedding of the Telegram scraping pipeline:
`app/services/telegram/client.py`, `app/services/scrapers/telegram_scraper.py`
and `app/services/scrapers/data_lake_manager.py`.

Pure data is modelled with Lean structures; file-system effects are modelled
as explicit lists of (path, content) writes; Python exceptions are modelled
with `Except`; `datetime.now()` values are passed in as explicit parameters.
-/

namespace Medigram

/-- A normalized message record as produced by
`TelegramClientService._process_message` (client.py, lines 156-225).
Only the fields the claims touch are carried in full; `has_image` and
`views` stand for the "other fields" a record may differ in. -/
structure Message where
  message_id : Nat
  channel_username : String
  date : String
  text : String
  has_image : Bool
  views : Option Nat
  deriving Repr, DecidableEq

/-! ## Platform client: `scrape_messages` (client.py, lines 97-154)

`iter_messages` is an external SDK call; we model one attempt of the
iteration by the list of records an uninterrupted run would yield.  A
`FloodWaitError` arriving mid-iteration is modelled by a `FloodEvent`
giving how many records had been yielded when it struck and the wait it
carries.  The code catches the error, sleeps `e.seconds`, and then
*recursively re-invokes the whole generator* (`async for message_data in
self.scrape_messages(...)` at lines 141-146), yielding everything the
retry produces.  `floods` is the schedule of flood errors the successive
attempts encounter; after the last one the attempt runs uninterrupted. -/

structure FloodEvent where
  after : Nat
  wait : Nat
  deriving Repr, DecidableEq

/-- Yielded sequence and total flood-induced sleep of `scrape_messages`
when the uninterrupted iteration would yield `msgs` and the successive
attempts hit the flood schedule `floods`. -/
def scrape_messages (msgs : List Message) : List FloodEvent → List Message × Nat
  | [] => (msgs, 0)
  | f :: rest =>
      let retry := scrape_messages msgs rest
      (msgs.take f.after ++ retry.1, f.wait + retry.2)

/-! ## Orchestrator batching: `TelegramScraper._scrape_channel`
(telegram_scraper.py, lines 114-132)

The loop appends each yielded record to `messages`, flushes via
`_save_messages_batch` when `len(messages) >= 100` and clears the list,
and flushes the remainder after the stream ends.  A written batch file is
represented by its content (the list of records handed to
`_save_messages_batch`). -/

/-- One step of the accumulation loop: append the record, flush at 100. -/
def batchStep (st : List Message × List (List Message)) (m : Message) :
    List Message × List (List Message) :=
  let batch := st.1 ++ [m]
  if batch.length ≥ 100 then ([], st.2 ++ [batch]) else (batch, st.2)

/-- The batch files written while consuming `stream`, in write order
(lines 114-132: the in-loop flushes, then the final `if messages:` flush). -/
def scrapeBatches (stream : List Message) : List (List Message) :=
  let st := stream.foldl batchStep ([], [])
  if st.1 ≠ [] then st.2 ++ [st.1] else st.2

/-! ## Platform client: `get_channel_info` (client.py, lines 78-95)

`self.client.get_entity` is an external SDK call that may raise; its
outcome is the `Except TgError Entity` input.  The body builds the info
dictionary from the entity; `except Exception` catches *every* failure,
logs it, and returns `None`. -/

/-- Errors the SDK entity lookup can raise. -/
inductive TgError where
  | usernameNotFound
  | channelPrivate
  | transport (msg : String)
  | other (msg : String)
  deriving Repr, DecidableEq

/-- The SDK entity object, with the attributes `get_channel_info` reads
via `getattr` (absent attributes modelled as `none` / the getattr default). -/
structure Entity where
  id : Nat
  title : Option String
  username : Option String
  participants_count : Option Nat
  about : Option String
  date : Option String
  verified : Bool
  scam : Bool
  fake : Bool
  deriving Repr, DecidableEq

/-- The dictionary `get_channel_info` returns on success (lines 82-92). -/
structure ChannelInfo where
  id : Nat
  title : Option String
  username : Option String
  participants_count : Option Nat
  description : Option String
  created_at : Option String
  verified : Bool
  scam : Bool
  fake : Bool
  deriving Repr, DecidableEq

/-- Field-by-field construction of the returned dictionary (lines 82-92). -/
def channelInfoOfEntity (e : Entity) : ChannelInfo :=
  { id := e.id
    title := e.title
    username := e.username
    participants_count := e.participants_count
    description := e.about
    created_at := e.date
    verified := e.verified
    scam := e.scam
    fake := e.fake }

/-- `get_channel_info`: the `Except` codomain records whether the Python
function propagates an exception (`.error`) or returns normally (`.ok`).
The source wraps the whole body in `try ... except Exception: return None`. -/
def get_channel_info (entityResult : Except TgError Entity) :
    Except TgError (Option ChannelInfo) :=
  match entityResult with
  | .ok e => .ok (some (channelInfoOfEntity e))
  | .error _ => .ok none

/-! ## Orchestrator: `TelegramScraper` (telegram_scraper.py) -/

/-- The configured channel list (telegram_scraper.py, lines 22-26). -/
def TelegramScraper.channels : List String :=
  ["chemed", "lobelia4cosmetics", "tikvahpharma"]

/-- The per-channel result dictionary `_scrape_channel` returns: either
the success dictionary of lines 156-162 or the `{"error": str(e)}`
dictionary of lines 106 and 166. -/
inductive ChannelResult where
  | success (channel_info : ChannelInfo) (messages_scraped images_scraped : Nat)
      (data_path : String)
  | error (msg : String)
  deriving Repr, DecidableEq

/-- Environment of one `_scrape_channel` call: the outcome of
`get_channel_info` (which never raises, see above), the records the
message stream yields before it ends or raises, the terminal exception
of the stream if any, and the outcome of writing `metadata.json`.
`_save_messages_batch` swallows its own exceptions (lines 191-192), so
batch saving cannot raise. -/
structure ScrapeEnv where
  channel_info : Option ChannelInfo
  stream : List Message
  stream_error : Option String
  metadata_write : Except String Unit
  deriving Repr

/-- Observable outcome of `_scrape_channel`: the batch files written via
`_save_messages_batch` (represented by their contents, in write order),
whether `metadata.json` was written, and the returned dictionary. -/
structure ChannelScrapeOutcome where
  saved_batches : List (List Message)
  metadata_written : Bool
  result : ChannelResult
  deriving Repr, DecidableEq

/-- `TelegramScraper._scrape_channel` (lines 94-166).  The outer
`try ... except Exception as e: return {"error": str(e)}` makes the
function total: a mid-stream exception leaves only the in-loop flushes
written (the `if messages:` remainder flush is skipped) and yields an
error dictionary; a metadata-write failure likewise. -/
def scrape_channel (data_dir channel_username date_str : String)
    (env : ScrapeEnv) : ChannelScrapeOutcome :=
  match env.channel_info with
  | none =>
      { saved_batches := [], metadata_written := false
        result := .error "Could not get channel info" }
  | some info =>
      let channel_dir :=
        data_dir ++ "/raw/telegram_messages/" ++ date_str ++ "/" ++ channel_username
      let st := env.stream.foldl batchStep ([], [])
      match env.stream_error with
      | some e =>
          { saved_batches := st.2, metadata_written := false, result := .error e }
      | none =>
          let saved := if st.1 ≠ [] then st.2 ++ [st.1] else st.2
          match env.metadata_write with
          | .error e =>
              { saved_batches := saved, metadata_written := false, result := .error e }
          | .ok _ =>
              { saved_batches := saved, metadata_written := true
                result := .success info env.stream.length
                  (env.stream.countP (·.has_image)) channel_dir }

/-- `TelegramScraper.scrape_single_channel` (lines 75-92): enters the
client context manager (`connect`, which may raise), runs
`_scrape_channel`, and leaves the context manager (`disconnect`). -/
def scrape_single_channel (connect disconnect : Except String Unit)
    (data_dir channel_username date_str : String) (env : ScrapeEnv) :
    Except String ChannelResult := do
  connect
  let r := (scrape_channel data_dir channel_username date_str env).result
  disconnect
  pure r

/-- The per-channel loop of `scrape_all_channels` (lines 51-68): each
channel's scrape (an `Except`, since the attempt may raise) is recorded
in the results dictionary; an exception is caught and recorded as
`{"error": str(e)}` and the loop continues. -/
def scrapeAllStep (scrape : String → Except String ChannelResult)
    (results : List (String × ChannelResult)) (ch : String) :
    List (String × ChannelResult) :=
  match scrape ch with
  | .ok r => results ++ [(ch, r)]
  | .error e => results ++ [(ch, .error e)]

/-- `TelegramScraper.scrape_all_channels` (lines 37-73): the results
dictionary collected by the per-channel loop, in insertion order. -/
def scrape_all_channels (scrape : String → Except String ChannelResult)
    (channels : List String) : List (String × ChannelResult) :=
  channels.foldl (scrapeAllStep scrape) []

/-- The report dictionary of `_generate_scraping_report` (lines 194-223). -/
structure ScrapingReport where
  total_channels : Nat
  successful_channels : Nat
  failed_channels : Nat
  total_messages : Nat
  total_images : Nat
  channel_results : List (String × ChannelResult)
  deriving Repr, DecidableEq

/-- The per-result accumulation of `_generate_scraping_report`
(lines 208-214): `result.get("success")` is truthy exactly for the
success dictionary. -/
def reportStep (rep : ScrapingReport) (r : String × ChannelResult) :
    ScrapingReport :=
  match r.2 with
  | .success _ m i _ =>
      { rep with
        successful_channels := rep.successful_channels + 1
        total_messages := rep.total_messages + m
        total_images := rep.total_images + i }
  | .error _ => { rep with failed_channels := rep.failed_channels + 1 }

/-- `_generate_scraping_report` (lines 194-223). -/
def generate_scraping_report (channels : List String)
    (results : List (String × ChannelResult)) : ScrapingReport :=
  results.foldl reportStep
    { total_channels := channels.length
      successful_channels := 0
      failed_channels := 0
      total_messages := 0
      total_images := 0
      channel_results := results }

/-! ## Data lake manager (data_lake_manager.py)

`_generate_message_hash` (lines 324-328) feeds
`f"{id}{date}{text}".encode('utf-8')` to `hashlib.md5` and takes the hex
digest; MD5 (RFC 1321) is implemented below over `Nat` bytes with
explicit `% 2^32` arithmetic. -/

/-- Word modulus of the 32-bit MD5 arithmetic. -/
def w32 : Nat := 4294967296

/-- Bitwise complement restricted to 32 bits. -/
def bnot32 (x : Nat) : Nat := (w32 - 1) - x % w32

/-- Left rotation of a 32-bit word by `s` bits. -/
def rotl32 (x s : Nat) : Nat := x % 2 ^ (32 - s) * 2 ^ s + x / 2 ^ (32 - s)

/-- MD5 per-round left-rotation amounts. -/
def md5S : List Nat :=
  [7, 12, 17, 22, 7, 12, 17, 22, 7, 12, 17, 22, 7, 12, 17, 22,
   5, 9, 14, 20, 5, 9, 14, 20, 5, 9, 14, 20, 5, 9, 14, 20,
   4, 11, 16, 23, 4, 11, 16, 23, 4, 11, 16, 23, 4, 11, 16, 23,
   6, 10, 15, 21, 6, 10, 15, 21, 6, 10, 15, 21, 6, 10, 15, 21]

/-- MD5 sine-derived round constants. -/
def md5K : List Nat :=
  [0xd76aa478, 0xe8c7b756, 0x242070db, 0xc1bdceee,
   0xf57c0faf, 0x4787c62a, 0xa8304613, 0xfd469501,
   0x698098d8, 0x8b44f7af, 0xffff5bb1, 0x895cd7be,
   0x6b901122, 0xfd987193, 0xa679438e, 0x49b40821,
   0xf61e2562, 0xc040b340, 0x265e5a51, 0xe9b6c7aa,
   0xd62f105d, 0x02441453, 0xd8a1e681, 0xe7d3fbc8,
   0x21e1cde6, 0xc33707d6, 0xf4d50d87, 0x455a14ed,
   0xa9e3e905, 0xfcefa3f8, 0x676f02d9, 0x8d2a4c8a,
   0xfffa3942, 0x8771f681, 0x6d9d6122, 0xfde5380c,
   0xa4beea44, 0x4bdecfa9, 0xf6bb4b60, 0xbebfbc70,
   0x289b7ec6, 0xeaa127fa, 0xd4ef3085, 0x04881d05,
   0xd9d4d039, 0xe6db99e5, 0x1fa27cf8, 0xc4ac5665,
   0xf4292244, 0x432aff97, 0xab9423a7, 0xfc93a039,
   0x655b59c3, 0x8f0ccc92, 0xffeff47d, 0x85845dd1,
   0x6fa87e4f, 0xfe2ce6e0, 0xa3014314, 0x4e0811a1,
   0xf7537e82, 0xbd3af235, 0x2ad7d2bb, 0xeb86d391]

/-- RFC 1321 padding: a 0x80 byte, zeros to 56 mod 64, then the bit
length as eight little-endian bytes. -/
def md5Pad (msg : List Nat) : List Nat :=
  let len := msg.length
  let zeros := (119 - len % 64) % 64
  msg ++ [128] ++ List.replicate zeros 0 ++
    (List.range 8).map (fun i => len * 8 / 2 ^ (8 * i) % 256)

/-- Split the padded byte stream into 64-byte blocks. -/
def toBlocks (l : List Nat) : List (List Nat) :=
  if h : l = [] then []
  else l.take 64 :: toBlocks (l.drop 64)
termination_by l.length
decreasing_by
  simp only [List.length_drop]
  have := List.length_pos.mpr h
  omega

/-- Decode a 64-byte block into sixteen little-endian 32-bit words. -/
def blockWords (b : List Nat) : List Nat :=
  (List.range 16).map fun j =>
    b.getD (4 * j) 0 + b.getD (4 * j + 1) 0 * 256 +
      b.getD (4 * j + 2) 0 * 65536 + b.getD (4 * j + 3) 0 * 16777216

/-- One of the 64 MD5 rounds on state (A, B, C, D). -/
def md5Round (M : List Nat) (st : Nat × Nat × Nat × Nat) (i : Nat) :
    Nat × Nat × Nat × Nat :=
  let (A, B, C, D) := st
  let Fg : Nat × Nat :=
    if i < 16 then ((B &&& C) ||| (bnot32 B &&& D), i)
    else if i < 32 then ((D &&& B) ||| (bnot32 D &&& C), (5 * i + 1) % 16)
    else if i < 48 then (B ^^^ C ^^^ D, (3 * i + 5) % 16)
    else (C ^^^ (B ||| bnot32 D), 7 * i % 16)
  let F := (Fg.1 + A + md5K.getD i 0 + M.getD Fg.2 0) % w32
  (D, (B + rotl32 F (md5S.getD i 0)) % w32, B, C)

/-- Process one 64-byte block, adding the round result to the state. -/
def md5Block (st : Nat × Nat × Nat × Nat) (b : List Nat) :
    Nat × Nat × Nat × Nat :=
  let r := (List.range 64).foldl (md5Round (blockWords b)) st
  ((st.1 + r.1) % w32, (st.2.1 + r.2.1) % w32,
   (st.2.2.1 + r.2.2.1) % w32, (st.2.2.2 + r.2.2.2) % w32)

/-- Hex character of a nibble (lowercase, as `hexdigest` produces). -/
def hexNibble (n : Nat) : Char :=
  if n < 10 then Char.ofNat (48 + n) else Char.ofNat (87 + n)

/-- Two hex characters of a byte. -/
def byteHex (b : Nat) : List Char := [hexNibble (b / 16), hexNibble (b % 16)]

/-- Little-endian bytes of a 32-bit word. -/
def wordLEBytes (w : Nat) : List Nat :=
  [w % 256, w / 256 % 256, w / 65536 % 256, w / 16777216 % 256]

/-- `hashlib.md5(bytes).hexdigest()` over a byte list. -/
def md5Hex (msg : List Nat) : String :=
  let st := (toBlocks (md5Pad msg)).foldl md5Block
    (1732584193, 4023233417, 2562383102, 271733878)
  ⟨((([st.1, st.2.1, st.2.2.1, st.2.2.2].map wordLEBytes).flatten).map byteHex).flatten⟩

/-- UTF-8 bytes of a Unicode code point (`str.encode('utf-8')`). -/
def utf8Bytes (c : Nat) : List Nat :=
  if c < 128 then [c]
  else if c < 2048 then [192 + c / 64, 128 + c % 64]
  else if c < 65536 then [224 + c / 4096, 128 + c / 64 % 64, 128 + c % 64]
  else [240 + c / 262144, 128 + c / 4096 % 64, 128 + c / 64 % 64, 128 + c % 64]

/-- UTF-8 encoding of a string. -/
def strUtf8 (s : String) : List Nat := (s.data.map (fun c => utf8Bytes c.toNat)).flatten

/-- The content string of `_generate_message_hash` (line 327):
`f"{message.get('message_id','')}{message.get('date','')}{message.get('text','')}"`. -/
def hashContent (m : Message) : String :=
  toString m.message_id ++ m.date ++ m.text

/-- `DataLakeManager._generate_message_hash` (lines 324-328). -/
def generate_message_hash (m : Message) : String :=
  md5Hex (strUtf8 (hashContent m))

/-- The `_metadata` dictionary `save_messages` injects into each record
(lines 77-83). -/
structure MsgMetadata where
  scraped_at : String
  channel : String
  partition_date : String
  file_path : String
  message_hash : String
  deriving Repr, DecidableEq

/-- A record as it sits in a batch file: original message plus the
injected metadata. -/
structure StoredMessage where
  msg : Message
  meta : MsgMetadata
  deriving Repr, DecidableEq

/-- Observable effect of one `save_messages` call: the partition
directory it ensures exists, the file writes it performs (path and the
logical JSON content, in write order), and the returned path. -/
structure SaveResult where
  dir_created : String
  writes : List (String × List StoredMessage)
  ret : String
  deriving Repr, DecidableEq

/-- `DataLakeManager.save_messages` (lines 43-97).  `datetime.now()`
appears as the `nowIso` (ISO form, metadata) and `nowStamp`
(`%Y%m%d_%H%M%S` form, filename) parameters; `date.strftime("%Y-%m-%d")`
as `dateStr`.  `file_path.with_suffix('.json.gz')` turns
`messages_{stamp}_{n}.json` into `messages_{stamp}_{n}.json.gz`.  The
same enriched list is dumped to the compressed file first, the plain
file second, and the plain path is returned. -/
def save_messages (data_dir channel : String) (messages : List Message)
    (dateStr nowIso nowStamp : String) : SaveResult :=
  let channel_dir := data_dir ++ "/raw" ++ "/telegram_messages/" ++ dateStr ++ "/" ++ channel
  let filename := "messages_" ++ nowStamp ++ "_" ++ toString messages.length ++ ".json"
  let file_path := channel_dir ++ "/" ++ filename
  let enriched := messages.map fun m =>
    { msg := m
      meta :=
        { scraped_at := nowIso
          channel := channel
          partition_date := dateStr
          file_path := file_path
          message_hash := generate_message_hash m } }
  { dir_created := channel_dir
    writes := [(file_path ++ ".gz", enriched), (file_path, enriched)]
    ret := file_path }

/-! ## `validate_data_integrity` (data_lake_manager.py, lines 187-242)

The walk over `telegram_messages/*/{channel}/messages_*.json` is modelled
by the list of file loads it encounters, in scan order.  A file either
fails to load (`json.load` raised), parses to something other than a
list, or parses to a list of records.  Records are modelled as the
well-typed `StoredMessage` shape that `save_messages` writes, in which
the four required fields are always present, so the `missing_fields`
check never fires and is omitted.  Python's `if message_hash:` treats an
empty-string hash as falsy. -/

/-- One batch file as the validation walk sees it. -/
inductive FileLoad where
  | loadError (err : String)
  | notAList (path : String)
  | parsed (msgs : List StoredMessage)
  deriving Repr, DecidableEq

/-- The counters of the `validation_results` dictionary. -/
structure ValidationResults where
  total_files : Nat
  valid_files : Nat
  invalid_files : Nat
  total_messages : Nat
  duplicate_messages : Nat
  errors : List String
  deriving Repr, DecidableEq

/-- The duplicate check on one message hash (lines 225-230): a truthy
hash already seen counts as a duplicate, otherwise it is recorded. -/
def dupStep (st : List String × Nat) (h : String) : List String × Nat :=
  if h ≠ "" then
    (if h ∈ st.1 then (st.1, st.2 + 1) else (h :: st.1, st.2))
  else st

/-- Processing of one file in the validation loop (lines 208-240). -/
def validateStep (st : ValidationResults × List String) (f : FileLoad) :
    ValidationResults × List String :=
  let r := { st.1 with total_files := st.1.total_files + 1 }
  match f with
  | .loadError e =>
      ({ r with invalid_files := r.invalid_files + 1, errors := r.errors ++ [e] }, st.2)
  | .notAList p =>
      ({ r with invalid_files := r.invalid_files + 1
                errors := r.errors ++ ["Invalid format in " ++ p] }, st.2)
  | .parsed msgs =>
      let d := msgs.foldl (fun s m => dupStep s m.meta.message_hash) (st.2, 0)
      ({ r with valid_files := r.valid_files + 1
                total_messages := r.total_messages + msgs.length
                duplicate_messages := r.duplicate_messages + d.2 }, d.1)

/-- `DataLakeManager.validate_data_integrity` (lines 187-242), folded
over the files the partition walk finds for the channel. -/
def validate_data_integrity (files : List FileLoad) : ValidationResults :=
  (files.foldl validateStep
    ({ total_files := 0, valid_files := 0, invalid_files := 0,
       total_messages := 0, duplicate_messages := 0, errors := [] }, [])).1

/-- All message hashes the validation walk inspects, in scan order. -/
def allHashes (files : List FileLoad) : List String :=
  (files.map fun f =>
    match f with
    | .parsed msgs => msgs.map (·.meta.message_hash)
    | _ => []).flatten

/-! ## `get_latest_messages` (data_lake_manager.py, lines 157-185)

Python sorts paths as strings; `pyStrLe` is code-point lexicographic
order, Python's string order. -/

/-- Code-point lexicographic order on code-point lists. -/
def codeLe : List Nat → List Nat → Bool
  | [], _ => true
  | _ :: _, [] => false
  | a :: as, b :: bs => if a < b then true else if b < a then false else codeLe as bs

/-- Python's `<=` on strings (lexicographic by code point). -/
def pyStrLe (a b : String) : Bool :=
  codeLe (a.data.map Char.toNat) (b.data.map Char.toNat)

/-- One date-partition directory as `get_latest_messages` sees it for a
fixed channel: its name, and — when the channel subdirectory exists —
the `messages_*.json` files in it as (filename, load result) pairs, a
failed `json.load` being `none` (logged and skipped, lines 178-181). -/
structure DateDir where
  name : String
  channelFiles : Option (List (String × Option (List StoredMessage)))

/-- Files one date directory contributes to `message_files`
(lines 166-170): nothing when the channel subdirectory is missing,
otherwise its files sorted by name descending. -/
def dirFiles (dd : DateDir) : List (Option (List StoredMessage)) :=
  match dd.channelFiles with
  | none => []
  | some files => (List.insertionSort (fun a b => pyStrLe b.1 a.1) files).map (·.2)

/-- Appending one date directory's files to the accumulator. -/
def collectStep (acc : List (Option (List StoredMessage))) (dd : DateDir) :
    List (Option (List StoredMessage)) :=
  match dd.channelFiles with
  | none => acc
  | some files =>
      acc ++ (List.insertionSort (fun a b => pyStrLe b.1 a.1) files).map (·.2)

/-- Reading one selected file (lines 173-181): a failed load is skipped. -/
def readFileStep (acc : List StoredMessage) (mf : Option (List StoredMessage)) :
    List StoredMessage :=
  match mf with
  | none => acc
  | some ms => acc ++ ms

/-- `DataLakeManager.get_latest_messages` (lines 157-185): collect file
paths newest-first (date directories sorted descending, then files
sorted descending inside each), keep the first `limit` files, read and
concatenate them, sort by the record's `date` field descending, truncate
to `limit` records. -/
def get_latest_messages (dateDirs : List DateDir) (limit : Nat) :
    List StoredMessage :=
  let sortedDirs := List.insertionSort (fun a b => pyStrLe b.name a.name) dateDirs
  let message_files := sortedDirs.foldl collectStep []
  let messages := (message_files.take limit).foldl readFileStep []
  (List.insertionSort (fun a b : StoredMessage => pyStrLe b.msg.date a.msg.date)
    messages).take limit

/-! ## `cleanup_old_data` (data_lake_manager.py, lines 244-258)

`datetime` instants are seconds; `datetime.strptime(name, "%Y-%m-%d")`
yields midnight of the parsed civil date.  The pipeline only creates
zero-padded `YYYY-MM-DD` names, and the parser models that form; any
other name raises, which the loop's `except` turns into a skip. -/

/-- Decimal digit test. -/
def isDigit (c : Char) : Bool := 48 ≤ c.toNat && c.toNat ≤ 57

/-- Value of a digit string. -/
def digitsToNat (cs : List Char) : Nat := cs.foldl (fun n c => n * 10 + (c.toNat - 48)) 0

/-- Length of a month, Gregorian rules. -/
def daysInMonth (y m : Nat) : Nat :=
  if m = 2 then (if y % 4 = 0 && (y % 100 ≠ 0 || y % 400 = 0) then 29 else 28)
  else if m = 4 || m = 6 || m = 9 || m = 11 then 30 else 31

/-- Days from 1970-01-01 to civil date y-m-d (proleptic Gregorian,
y ≥ 1). -/
def daysFromCivil (y m d : Nat) : Int :=
  let yy := if m ≤ 2 then y - 1 else y
  let era := yy / 400
  let yoe := yy % 400
  let mp := (m + 9) % 12
  let doy := (153 * mp + 2) / 5 + d - 1
  let doe := yoe * 365 + yoe / 4 - yoe / 100 + doy
  (era * 146097 + doe : Int) - 719468

/-- `datetime.strptime(s, "%Y-%m-%d")` for the zero-padded names the
pipeline writes: the instant (seconds) of midnight of the parsed date,
or `none` when parsing raises. -/
def strptimeYMD (s : String) : Option Int :=
  match s.data with
  | [y1, y2, y3, y4, '-', m1, m2, '-', d1, d2] =>
      if ([y1, y2, y3, y4, m1, m2, d1, d2].all isDigit) then
        let y := digitsToNat [y1, y2, y3, y4]
        let m := digitsToNat [m1, m2]
        let d := digitsToNat [d1, d2]
        if 1 ≤ y && 1 ≤ m && m ≤ 12 && 1 ≤ d && d ≤ daysInMonth y m then
          some (daysFromCivil y m d * 86400)
        else none
      else none
  | _ => none

/-- The per-directory decision of `cleanup_old_data` (lines 248-258),
partitioning names into (removed, remaining): a directory is removed
exactly when its name parses and the parsed midnight is strictly before
the cutoff; a parse failure is caught and the directory is left
untouched. -/
def cleanupStep (cutoff : Int) (st : List String × List String) (name : String) :
    List String × List String :=
  match strptimeYMD name with
  | some t => if t < cutoff then (st.1 ++ [name], st.2) else (st.1, st.2 ++ [name])
  | none => (st.1, st.2 ++ [name])

/-- The loop of `cleanup_old_data` over the date directories found by the
glob, with `cutoff = datetime.now() - timedelta(days=days_to_keep)`. -/
def cleanup_old_data (now : Int) (days_to_keep : Nat) (dirs : List String) :
    List String × List String :=
  let cutoff := now - days_to_keep * 86400
  dirs.foldl (cleanupStep cutoff) ([], [])

/-! # Theorems -/

/-- C1 (counterexample): with a stream of two messages and a rate-limit
signal of wait 5 arriving after the first message was yielded, the
consumer does observe the 5-second pause, but the yielded sequence is
NOT the uninterrupted sequence: the first message is yielded twice,
because the `except FloodWaitError` handler re-invokes the whole
generator from the beginning instead of resuming where it left off. -/
theorem C1_floodwait_counterexample :
    scrape_messages
        [⟨1, "chemed", "2024-01-01T00:00:00", "hello", false, none⟩,
         ⟨2, "chemed", "2024-01-01T00:01:00", "world", false, none⟩]
        [⟨1, 5⟩]
      ≠ ([⟨1, "chemed", "2024-01-01T00:00:00", "hello", false, none⟩,
          ⟨2, "chemed", "2024-01-01T00:01:00", "world", false, none⟩], 5) ∧
    scrape_messages
        [⟨1, "chemed", "2024-01-01T00:00:00", "hello", false, none⟩,
         ⟨2, "chemed", "2024-01-01T00:01:00", "world", false, none⟩]
        [⟨1, 5⟩]
      = ([⟨1, "chemed", "2024-01-01T00:00:00", "hello", false, none⟩,
          ⟨1, "chemed", "2024-01-01T00:00:00", "hello", false, none⟩,
          ⟨2, "chemed", "2024-01-01T00:01:00", "world", false, none⟩], 5) := by
  constructor <;> decide

/-- C1 (amended): when rate-limit signals strike mid-iteration, the
consumer observes a pause equal to the sum of the signalled waits, but
iteration then *restarts from the beginning* rather than resuming: the
yielded sequence is, for each flood in order, the prefix yielded before
that flood, followed by one full uninterrupted sequence.  No message of
an uninterrupted run is lost (the full sequence is a suffix of the
yield), but every message yielded before a flood is duplicated. -/
theorem C1_floodwait_restart (msgs : List Message) (floods : List FloodEvent) :
    scrape_messages msgs floods
      = ((floods.map fun f => msgs.take f.after).flatten ++ msgs,
         (floods.map FloodEvent.wait).sum) ∧
    msgs <:+ (scrape_messages msgs floods).1 := by
  have h : scrape_messages msgs floods
      = ((floods.map fun f => msgs.take f.after).flatten ++ msgs,
         (floods.map FloodEvent.wait).sum) := by
    induction floods with
    | nil => simp [scrape_messages]
    | cons f rest ih => simp [scrape_messages, ih]
  exact ⟨h, by rw [h]; exact List.suffix_append _ _⟩

/-- C8 (counterexample): when the entity lookup fails with a
transport-level error, `get_channel_info` does not raise either — the
blanket `except Exception` returns `None` — contradicting the claim
that it raises for (and only for) transport-level failure. -/
theorem C8_transport_counterexample :
    get_channel_info (Except.error (TgError.transport "ConnectionError: connection reset"))
      = Except.ok none := rfl

/-- C8 (amended): `get_channel_info` never raises for any failure of the
entity lookup — a missing channel and a transport-level failure alike
produce the "not found" result `None` — and a successful lookup yields
the metadata dictionary. -/
theorem C8_never_raises :
    (∀ e : Entity,
        get_channel_info (Except.ok e) = Except.ok (some (channelInfoOfEntity e))) ∧
    (∀ err : TgError, get_channel_info (Except.error err) = Except.ok none) :=
  ⟨fun _ => rfl, fun _ => rfl⟩

/-- C10: `save_messages` on an empty message list succeeds: it still
targets the (date, channel) partition directory, writes the pair
`messages_{timestamp}_0.json.gz` and `messages_{timestamp}_0.json`, each
containing the empty JSON array, and returns the plain-text path. -/
theorem C10_empty_save (data_dir channel dateStr nowIso nowStamp : String) :
    save_messages data_dir channel [] dateStr nowIso nowStamp =
      { dir_created :=
          data_dir ++ "/raw" ++ "/telegram_messages/" ++ dateStr ++ "/" ++ channel
        writes :=
          [(data_dir ++ "/raw" ++ "/telegram_messages/" ++ dateStr ++ "/" ++ channel
              ++ "/" ++ ("messages_" ++ nowStamp ++ "_" ++ "0" ++ ".json") ++ ".gz", []),
           (data_dir ++ "/raw" ++ "/telegram_messages/" ++ dateStr ++ "/" ++ channel
              ++ "/" ++ ("messages_" ++ nowStamp ++ "_" ++ "0" ++ ".json"), [])]
        ret :=
          data_dir ++ "/raw" ++ "/telegram_messages/" ++ dateStr ++ "/" ++ channel
            ++ "/" ++ ("messages_" ++ nowStamp ++ "_" ++ "0" ++ ".json") } := rfl

/-- C4: for a non-empty batch, `save_messages` writes the
metadata-enriched batch twice under the same logical name — once
compressed (`.json.gz`) and once plain (`.json`) — with identical
logical content (the same enriched list is dumped to both), returns the
plain-text path, and the enriched content carries exactly the original
records. -/
theorem C4_dual_write (data_dir channel : String) (messages : List Message)
    (dateStr nowIso nowStamp : String) (hne : messages ≠ []) :
    ∃ base content,
      (save_messages data_dir channel messages dateStr nowIso nowStamp).writes
          = [(base ++ ".json.gz", content), (base ++ ".json", content)] ∧
      (save_messages data_dir channel messages dateStr nowIso nowStamp).ret
          = base ++ ".json" ∧
      content.map StoredMessage.msg = messages := by
  clear hne
  refine ⟨data_dir ++ "/raw" ++ "/telegram_messages/" ++ dateStr ++ "/" ++ channel
      ++ "/" ++ ("messages_" ++ nowStamp ++ "_" ++ toString messages.length),
      messages.map fun m =>
        { msg := m
          meta :=
            { scraped_at := nowIso
              channel := channel
              partition_date := dateStr
              file_path := data_dir ++ "/raw" ++ "/telegram_messages/" ++ dateStr
                ++ "/" ++ channel ++ "/"
                ++ ("messages_" ++ nowStamp ++ "_" ++ toString messages.length ++ ".json")
              message_hash := generate_message_hash m } },
      ?_, ?_, ?_⟩
  · simp only [save_messages, String.append_assoc]
    rfl
  · simp only [save_messages, String.append_assoc]
  · rw [List.map_map]
    exact List.map_id _

/-- C4 witness: the dual-write shape at a concrete one-record batch. -/
theorem C4_dual_write_witness :
    ∃ base content,
      (save_messages "data" "chemed"
          [⟨1, "chemed", "2024-01-01T00:00:00", "hello", false, none⟩]
          "2024-01-01" "2024-01-01T01:00:00" "20240101_010000").writes
          = [(base ++ ".json.gz", content), (base ++ ".json", content)] ∧
      (save_messages "data" "chemed"
          [⟨1, "chemed", "2024-01-01T00:00:00", "hello", false, none⟩]
          "2024-01-01" "2024-01-01T01:00:00" "20240101_010000").ret
          = base ++ ".json" ∧
      content.map StoredMessage.msg
          = [⟨1, "chemed", "2024-01-01T00:00:00", "hello", false, none⟩] :=
  C4_dual_write "data" "chemed"
    [⟨1, "chemed", "2024-01-01T00:00:00", "hello", false, none⟩]
    "2024-01-01" "2024-01-01T01:00:00" "20240101_010000" (by decide)

/-- The channel loop records one outcome per channel, in order: a raised
exception is caught and recorded as that channel's error entry. -/
theorem scrape_all_fold (scrape : String → Except String ChannelResult)
    (channels : List String) (acc : List (String × ChannelResult)) :
    channels.foldl (scrapeAllStep scrape) acc
      = acc ++ channels.map (fun ch => (ch,
          match scrape ch with
          | .ok r => r
          | .error e => ChannelResult.error e)) := by
  induction channels generalizing acc with
  | nil => simp
  | cons c t ih =>
    simp only [List.foldl_cons, List.map_cons]
    cases hc : scrape c <;> simp [scrapeAllStep, hc, ih]

/-- The report fold never touches `channel_results` or `total_channels`,
and counts every result as either a success or a failure. -/
theorem reportStep_fold (results : List (String × ChannelResult))
    (rep : ScrapingReport) :
    (results.foldl reportStep rep).channel_results = rep.channel_results ∧
    (results.foldl reportStep rep).total_channels = rep.total_channels ∧
    (results.foldl reportStep rep).successful_channels
        + (results.foldl reportStep rep).failed_channels
      = rep.successful_channels + rep.failed_channels + results.length := by
  induction results generalizing rep with
  | nil => simp
  | cons r t ih =>
    simp only [List.foldl_cons]
    rcases r with ⟨ch, cr⟩
    cases cr with
    | success i m im p =>
        obtain ⟨h1, h2, h3⟩ := ih (reportStep rep (ch, .success i m im p))
        exact ⟨h1, h2, by rw [h3]; simp [reportStep]; omega⟩
    | error e =>
        obtain ⟨h1, h2, h3⟩ := ih (reportStep rep (ch, .error e))
        exact ⟨h1, h2, by rw [h3]; simp [reportStep]; omega⟩

/-- C3: an exception while scraping one channel is caught and recorded
as that channel's error entry without stopping the loop; the results
dictionary has exactly one outcome per configured channel, in order; the
final report embeds those results unchanged, counts every channel as
either a success or a failure, and is produced even when every channel
failed (shown on the configured three-channel registry with an
always-failing scrape). -/
theorem C3_per_channel_isolation (scrape : String → Except String ChannelResult)
    (channels : List String) :
    scrape_all_channels scrape channels
      = channels.map (fun ch => (ch,
          match scrape ch with
          | .ok r => r
          | .error e => ChannelResult.error e)) ∧
    (scrape_all_channels scrape channels).map Prod.fst = channels ∧
    (generate_scraping_report channels (scrape_all_channels scrape channels)).channel_results
      = scrape_all_channels scrape channels ∧
    (generate_scraping_report channels (scrape_all_channels scrape channels)).total_channels
      = channels.length ∧
    (generate_scraping_report channels (scrape_all_channels scrape channels)).successful_channels
      + (generate_scraping_report channels (scrape_all_channels scrape channels)).failed_channels
      = channels.length ∧
    generate_scraping_report TelegramScraper.channels
        (scrape_all_channels (fun _ => Except.error "boom") TelegramScraper.channels)
      = { total_channels := 3, successful_channels := 0, failed_channels := 3,
          total_messages := 0, total_images := 0,
          channel_results := [("chemed", .error "boom"),
            ("lobelia4cosmetics", .error "boom"), ("tikvahpharma", .error "boom")] } := by
  have h1 : scrape_all_channels scrape channels
      = channels.map (fun ch => (ch,
          match scrape ch with
          | .ok r => r
          | .error e => ChannelResult.error e)) := by
    simpa [scrape_all_channels] using scrape_all_fold scrape channels []
  have hlen : (scrape_all_channels scrape channels).length = channels.length := by
    rw [h1, List.length_map]
  obtain ⟨hr1, hr2, hr3⟩ :=
    reportStep_fold (scrape_all_channels scrape channels)
      { total_channels := channels.length, successful_channels := 0
        failed_channels := 0, total_messages := 0, total_images := 0
        channel_results := scrape_all_channels scrape channels }
  refine ⟨h1, ?_, hr1, hr2, ?_, by rfl⟩
  · rw [h1, List.map_map]
    simp [Function.comp_def]
  · rw [generate_scraping_report] at *
    rw [hr3]
    simpa using hlen

/-- The cleanup loop partitions directory names by the parse-and-compare
decision, preserving scan order on both sides. -/
theorem cleanup_fold (cutoff : Int) (dirs : List String) (r0 k0 : List String) :
    dirs.foldl (cleanupStep cutoff) (r0, k0)
      = (r0 ++ dirs.filter (fun n =>
            match strptimeYMD n with
            | some t => decide (t < cutoff)
            | none => false),
         k0 ++ dirs.filter (fun n =>
            match strptimeYMD n with
            | some t => !decide (t < cutoff)
            | none => true)) := by
  induction dirs generalizing r0 k0 with
  | nil => simp
  | cons d t ih =>
    simp only [List.foldl_cons, List.filter_cons]
    cases hd : strptimeYMD d with
    | none =>
        simp only [cleanupStep, hd]
        rw [ih]
        simp
    | some tm =>
        by_cases hc : tm < cutoff
        · simp only [cleanupStep, hd, if_pos hc]
          rw [ih]
          simp [hc]
        · simp only [cleanupStep, hd, if_neg hc]
          rw [ih]
          simp [hc]

/-- C7: `cleanup_old_data` removes exactly the date-partition
directories whose name parses to a date strictly before
`now - days_to_keep` days, and keeps every other directory (younger
dates and unparseable names); in particular, with `days_to_keep = 90`
and `now` at noon of 2024-06-01, the partition dated 120 days earlier
(2024-02-02) is removed and the one dated 30 days earlier (2024-05-02)
is retained. -/
theorem C7_cleanup_cutoff (now : Int) (days_to_keep : Nat) (dirs : List String) :
    cleanup_old_data now days_to_keep dirs
      = (dirs.filter (fun n =>
            match strptimeYMD n with
            | some t => decide (t < now - days_to_keep * 86400)
            | none => false),
         dirs.filter (fun n =>
            match strptimeYMD n with
            | some t => !decide (t < now - days_to_keep * 86400)
            | none => true)) ∧
    cleanup_old_data (daysFromCivil 2024 6 1 * 86400 + 43200) 90
        ["2024-02-02", "2024-05-02"]
      = (["2024-02-02"], ["2024-05-02"]) := by
  refine ⟨?_, by decide⟩
  simpa [cleanup_old_data] using
    cleanup_fold (now - days_to_keep * 86400) dirs [] []

/-- C9 (counterexample): when establishing the client session fails,
`scrape_single_channel` propagates the exception instead of returning a
result dictionary: the `async with TelegramClientService()` entry
(`connect`, which re-raises, client.py lines 68-70) sits outside
`_scrape_channel`'s protective `try`. -/
theorem C9_connect_counterexample :
    scrape_single_channel (Except.error "ConnectionError: cannot connect")
        (Except.ok ()) "data" "chemed" "2024-01-01"
        { channel_info := none, stream := [], stream_error := none,
          metadata_write := Except.ok () }
      = Except.error "ConnectionError: cannot connect" := rfl

/-- C9 (amended): `_scrape_channel` itself never propagates an
exception: an unavailable channel info yields the structured error
result, a mid-stream exception and a metadata-write failure are caught
and converted into `ChannelResult.error (str e)`; consequently a caller
of `scrape_single_channel` receives a result dictionary whenever
establishing and closing the client session succeed — but a session
`connect` failure still propagates. -/
theorem C9_no_propagation (data_dir ch dateStr : String) (env : ScrapeEnv) :
    scrape_single_channel (Except.ok ()) (Except.ok ()) data_dir ch dateStr env
      = Except.ok (scrape_channel data_dir ch dateStr env).result ∧
    (env.channel_info = none →
      (scrape_channel data_dir ch dateStr env).result
        = ChannelResult.error "Could not get channel info") ∧
    (∀ info e, env.channel_info = some info → env.stream_error = some e →
      (scrape_channel data_dir ch dateStr env).result = ChannelResult.error e) ∧
    (∀ info e, env.channel_info = some info → env.stream_error = none →
      env.metadata_write = Except.error e →
      (scrape_channel data_dir ch dateStr env).result = ChannelResult.error e) := by
  rcases env with ⟨ci, stream, serr, mw⟩
  refine ⟨?_, ?_, ?_, ?_⟩
  · cases ci with
    | none => rfl
    | some info =>
        cases serr with
        | none => cases mw <;> rfl
        | some e => rfl
  · rintro rfl; rfl
  · rintro info e rfl rfl; rfl
  · rintro info e rfl rfl rfl; rfl

/-- C9 witness: a transport error raised mid-stream is converted into
the structured error result and returned, not raised. -/
theorem C9_no_propagation_witness :
    scrape_single_channel (Except.ok ()) (Except.ok ()) "data" "chemed" "2024-01-01"
        { channel_info := some ⟨1, none, none, none, none, none, false, false, false⟩,
          stream := [], stream_error := some "TransportError: timeout",
          metadata_write := Except.ok () }
      = Except.ok (ChannelResult.error "TransportError: timeout") := by
  have h := C9_no_propagation "data" "chemed" "2024-01-01"
    { channel_info := some ⟨1, none, none, none, none, none, false, false, false⟩,
      stream := [], stream_error := some "TransportError: timeout",
      metadata_write := Except.ok () }
  rw [h.1, h.2.2.1 ⟨1, none, none, none, none, none, false, false, false⟩
    "TransportError: timeout" rfl rfl]

/-- Invariant of the batching loop of `_scrape_channel`: starting from a
batch below the threshold, everything flushed so far plus the current
batch is exactly what has been consumed, the current batch stays below
100, and every newly flushed batch has exactly 100 records. -/
theorem batchStep_fold (l b : List Message) (sv : List (List Message))
    (hb : b.length < 100) :
    (l.foldl batchStep (b, sv)).2.flatten ++ (l.foldl batchStep (b, sv)).1
        = sv.flatten ++ (b ++ l) ∧
    (l.foldl batchStep (b, sv)).1.length < 100 ∧
    (∀ x ∈ (l.foldl batchStep (b, sv)).2, x ∈ sv ∨ x.length = 100) := by
  induction l generalizing b sv with
  | nil => exact ⟨by simp, hb, fun x hx => Or.inl hx⟩
  | cons m t ih =>
      simp only [List.foldl_cons]
      by_cases hlen : (b ++ [m]).length ≥ 100
      · have h100 : (b ++ [m]).length = 100 := by
          simp only [List.length_append, List.length_cons, List.length_nil] at hlen ⊢
          omega
        have hstep : batchStep (b, sv) m = ([], sv ++ [b ++ [m]]) := by
          rw [show batchStep (b, sv) m
              = if (b ++ [m]).length ≥ 100 then ([], sv ++ [b ++ [m]])
                else (b ++ [m], sv) from rfl,
            if_pos hlen]
        rw [hstep]
        obtain ⟨h1, h2, h3⟩ := ih [] (sv ++ [b ++ [m]]) (by simp)
        refine ⟨?_, h2, ?_⟩
        · rw [h1]; simp
        · intro x hx
          rcases h3 x hx with hx2 | hx2
          · rcases List.mem_append.mp hx2 with hx3 | hx3
            · exact Or.inl hx3
            · have hx4 : x = b ++ [m] := by simpa using hx3
              exact Or.inr (hx4 ▸ h100)
          · exact Or.inr hx2
      · have hstep : batchStep (b, sv) m = (b ++ [m], sv) := by
          rw [show batchStep (b, sv) m
              = if (b ++ [m]).length ≥ 100 then ([], sv ++ [b ++ [m]])
                else (b ++ [m], sv) from rfl,
            if_neg hlen]
        rw [hstep]
        obtain ⟨h1, h2, h3⟩ := ih (b ++ [m]) sv (Nat.lt_of_not_le hlen)
        exact ⟨by rw [h1]; simp, h2, h3⟩

/-- Flattening a list of exactly-100-record batches. -/
theorem flatten_length_100 (sv : List (List Message))
    (h : ∀ x ∈ sv, x.length = 100) : sv.flatten.length = 100 * sv.length := by
  induction sv with
  | nil => simp
  | cons a t ih =>
      simp only [List.flatten_cons, List.length_append, List.length_cons]
      rw [h a (by simp), ih (fun x hx => h x (by simp [hx]))]
      ring

/-- C2: for a stream that completes normally, `_scrape_channel` flushes
batches exactly at 100 records and the remainder after the stream ends:
the written batch files are `scrapeBatches stream`; their concatenation
is exactly the stream (every record written exactly once); every file
before the last holds exactly 100 records; every file is non-empty with
at most 100 records; and when `n % 100 ≠ 0` the final file holds the
`n % 100` remainder. -/
theorem C2_batch_flush (data_dir ch dateStr : String) (info : ChannelInfo)
    (stream : List Message) (mw : Except String Unit) :
    (scrape_channel data_dir ch dateStr
        { channel_info := some info, stream := stream, stream_error := none,
          metadata_write := mw }).saved_batches
      = scrapeBatches stream ∧
    (scrapeBatches stream).flatten = stream ∧
    (∀ bf ∈ (scrapeBatches stream).dropLast, bf.length = 100) ∧
    (∀ bf ∈ scrapeBatches stream, 0 < bf.length ∧ bf.length ≤ 100) ∧
    (stream.length % 100 ≠ 0 →
      ((scrapeBatches stream).getLastD []).length = stream.length % 100) := by
  obtain ⟨h1, h2, h3⟩ := batchStep_fold stream [] [] (by simp)
  have hall : ∀ x ∈ (stream.foldl batchStep ([], [])).2, x.length = 100 :=
    fun x hx => (h3 x hx).resolve_left (by simp)
  have hflat : (stream.foldl batchStep ([], [])).2.flatten
      ++ (stream.foldl batchStep ([], [])).1 = stream := by simpa using h1
  have hlen100 : (stream.foldl batchStep ([], [])).2.flatten.length
      = 100 * (stream.foldl batchStep ([], [])).2.length := flatten_length_100 _ hall
  refine ⟨by cases mw <;> rfl, ?_, ?_, ?_, ?_⟩
  all_goals
    simp only [scrapeBatches]
    by_cases hb1 : (stream.foldl batchStep ([], [])).1 = []
  · rw [if_neg (by simpa using hb1)]
    simpa [hb1] using hflat
  · rw [if_pos hb1]
    simp only [List.flatten_append, List.flatten_cons, List.flatten_nil, List.append_nil]
    exact hflat
  · rw [if_neg (by simpa using hb1)]
    intro bf hbf
    exact hall bf (List.dropLast_subset _ hbf)
  · rw [if_pos hb1, List.dropLast_concat]
    intro bf hbf
    exact hall bf hbf
  · rw [if_neg (by simpa using hb1)]
    intro bf hbf
    have := hall bf hbf
    omega
  · rw [if_pos hb1]
    intro bf hbf
    rcases List.mem_append.mp hbf with hx | hx
    · have := hall bf hx
      omega
    · have hbe : bf = (stream.foldl batchStep ([], [])).1 := by simpa using hx
      subst hbe
      exact ⟨List.length_pos.mpr hb1, by omega⟩
  · rw [if_neg (by simpa using hb1)]
    intro hmod
    exfalso
    apply hmod
    have hstream := congrArg List.length hflat
    rw [List.length_append, hlen100, hb1] at hstream
    simp only [List.length_nil, Nat.add_zero] at hstream
    omega
  · rw [if_pos hb1, List.getLastD_concat]
    intro hmod
    have hstream := congrArg List.length hflat
    rw [List.length_append, hlen100] at hstream
    omega

/-- C2 witness: a three-record stream is flushed as a single remainder
file of 3 = 3 % 100 records containing exactly the stream. -/
theorem C2_batch_flush_witness :
    (scrapeBatches
        [⟨1, "chemed", "2024-01-01T00:00:00", "a", false, none⟩,
         ⟨2, "chemed", "2024-01-01T00:01:00", "b", false, none⟩,
         ⟨3, "chemed", "2024-01-01T00:02:00", "c", false, none⟩]).flatten
      = [⟨1, "chemed", "2024-01-01T00:00:00", "a", false, none⟩,
         ⟨2, "chemed", "2024-01-01T00:01:00", "b", false, none⟩,
         ⟨3, "chemed", "2024-01-01T00:02:00", "c", false, none⟩] ∧
    ((scrapeBatches
        [⟨1, "chemed", "2024-01-01T00:00:00", "a", false, none⟩,
         ⟨2, "chemed", "2024-01-01T00:01:00", "b", false, none⟩,
         ⟨3, "chemed", "2024-01-01T00:02:00", "c", false, none⟩]).getLastD []).length
      = 3 % 100 := by
  have h := C2_batch_flush "data" "chemed" "2024-01-01"
    ⟨1, none, none, none, none, none, false, false, false⟩
    [⟨1, "chemed", "2024-01-01T00:00:00", "a", false, none⟩,
     ⟨2, "chemed", "2024-01-01T00:01:00", "b", false, none⟩,
     ⟨3, "chemed", "2024-01-01T00:02:00", "c", false, none⟩]
    (Except.ok ())
  exact ⟨h.2.1, h.2.2.2.2 (by decide)⟩

/-- Collecting the channel's files over the date directories equals the
flattened per-directory file lists, in directory order. -/
theorem collectStep_fold (dirs : List DateDir)
    (acc : List (Option (List StoredMessage))) :
    dirs.foldl collectStep acc = acc ++ (dirs.map dirFiles).flatten := by
  induction dirs generalizing acc with
  | nil => simp
  | cons d t ih =>
      cases hd : d.channelFiles with
      | none =>
          simp only [List.foldl_cons, collectStep, hd, List.map_cons,
            List.flatten_cons, dirFiles]
          rw [ih]
          simp
      | some files =>
          simp only [List.foldl_cons, collectStep, hd, List.map_cons,
            List.flatten_cons, dirFiles]
          rw [ih]
          simp [List.append_assoc]

/-- Reading the selected files equals flattening the loadable ones. -/
theorem readFileStep_fold (mfs : List (Option (List StoredMessage)))
    (acc : List StoredMessage) :
    mfs.foldl readFileStep acc = acc ++ (mfs.filterMap id).flatten := by
  induction mfs generalizing acc with
  | nil => simp
  | cons f t ih =>
      cases f with
      | none =>
          simp only [List.foldl_cons, readFileStep, List.filterMap_cons, id]
          rw [ih]
      | some ms =>
          simp only [List.foldl_cons, readFileStep, List.filterMap_cons, id,
            List.flatten_cons]
          rw [ih]
          simp [List.append_assoc]

/-- C6: `get_latest_messages` reads at most `limit` batch files, chosen
newest-first (date directories sorted descending, files inside each
sorted descending), concatenates their records, sorts the concatenation
by message date descending and truncates to `limit` records — the limit
bounds the number of files read, not the number of records read, so the
pre-truncation concatenation can hold more than `limit` records (shown
by a single two-record file read under `limit = 1`). -/
theorem C6_latest_file_limit (dateDirs : List DateDir) (limit : Nat) :
    get_latest_messages dateDirs limit
      = (List.insertionSort (fun a b : StoredMessage => pyStrLe b.msg.date a.msg.date)
          (((((List.insertionSort (fun a b => pyStrLe b.name a.name) dateDirs).map
              dirFiles).flatten.take limit).filterMap id).flatten)).take limit ∧
    ((((List.insertionSort (fun a b => pyStrLe b.name a.name) dateDirs).map
        dirFiles).flatten.take limit).length ≤ limit) ∧
    (get_latest_messages dateDirs limit).length ≤ limit ∧
    (∃ dd : DateDir,
      (get_latest_messages [dd] 1).length = 1 ∧
      ((([dd].map dirFiles).flatten.take 1).filterMap id).flatten.length = 2) := by
  have hmain : ∀ (dds : List DateDir) (lim : Nat),
      get_latest_messages dds lim
        = (List.insertionSort (fun a b : StoredMessage => pyStrLe b.msg.date a.msg.date)
            (((((List.insertionSort (fun a b => pyStrLe b.name a.name) dds).map
                dirFiles).flatten.take lim).filterMap id).flatten)).take lim := by
    intro dds lim
    simp only [get_latest_messages]
    rw [collectStep_fold _ [], readFileStep_fold _ []]
    simp
  refine ⟨hmain dateDirs limit, List.length_take_le _ _, ?_, ?_⟩
  · rw [hmain]
    exact List.length_take_le _ _
  · refine ⟨⟨"2024-01-01", some [("messages_20240101_000000_2.json",
        some [⟨⟨1, "chemed", "2024-01-01T00:00:00", "a", false, none⟩,
               ⟨"s", "chemed", "2024-01-01", "p", "h1"⟩⟩,
              ⟨⟨2, "chemed", "2024-01-01T00:01:00", "b", false, none⟩,
               ⟨"s", "chemed", "2024-01-01", "p", "h2"⟩⟩])]⟩, ?_, ?_⟩
    · decide
    · decide

/-- Filtering on "not seen" ignores an element absent from the list. -/
theorem filter_not_mem_cons (seen : List String) (a : String) (l : List String)
    (hal : a ∉ l) :
    l.filter (fun x => decide (x ∉ seen))
      = l.filter (fun x => decide (x ∉ a :: seen)) := by
  apply List.filter_congr
  intro x hx
  have hxa : x ≠ a := fun hh => hal (hh ▸ hx)
  simp [List.mem_cons, hxa]

/-- Marking an unseen element that occurs (once) in a duplicate-free
list shrinks the "not seen" filter by exactly one. -/
theorem filter_length_cons_mem (seen : List String) (a : String) (l : List String)
    (hnd : l.Nodup) (hal : a ∈ l) (has : a ∉ seen) :
    (l.filter (fun x => decide (x ∉ seen))).length
      = (l.filter (fun x => decide (x ∉ a :: seen))).length + 1 := by
  induction l with
  | nil => cases hal
  | cons b t ih =>
      rcases List.mem_cons.mp hal with heq | hat
      · subst heq
        have hnat : a ∉ t := (List.nodup_cons.mp hnd).1
        have h1 : decide (a ∉ seen) = true := by simpa using has
        have h2 : decide (a ∉ a :: seen) = false := by simp
        rw [List.filter_cons, List.filter_cons, h1, h2]
        rw [filter_not_mem_cons seen a t hnat]
        simp
      · have hbt : b ∉ t := (List.nodup_cons.mp hnd).1
        have hba : b ≠ a := fun hh => hbt (hh ▸ hat)
        have ih2 := ih (List.nodup_cons.mp hnd).2 hat
        by_cases hbs : b ∈ seen
        · have h1 : decide (b ∉ seen) = false := by simpa using hbs
          have h2 : decide (b ∉ a :: seen) = false := by
            simp [List.mem_cons, hbs]
          rw [List.filter_cons, List.filter_cons, h1, h2]
          exact ih2
        · have h1 : decide (b ∉ seen) = true := by simpa using hbs
          have h2 : decide (b ∉ a :: seen) = true := by
            simp [List.mem_cons, hbs, hba]
          rw [List.filter_cons, List.filter_cons, h1, h2]
          simp only [if_true, List.length_cons]
          omega

/-- The duplicate counter is additive in its accumulator, and the seen
set it builds does not depend on the accumulator. -/
theorem dupStep_fold_add (hs : List String) (seen : List String) (d : Nat) :
    hs.foldl dupStep (seen, d)
      = ((hs.foldl dupStep (seen, 0)).1, d + (hs.foldl dupStep (seen, 0)).2) := by
  induction hs generalizing seen d with
  | nil => simp
  | cons a t ih =>
      simp only [List.foldl_cons]
      by_cases ha : a = ""
      · have hstep : ∀ d0 : Nat, dupStep (seen, d0) a = (seen, d0) := by
          intro d0
          simp [dupStep, ha]
        rw [hstep d, hstep 0]
        exact ih seen d
      · by_cases ham : a ∈ seen
        · have hstep : ∀ d0 : Nat, dupStep (seen, d0) a = (seen, d0 + 1) := by
            intro d0
            simp [dupStep, ha, ham]
          rw [hstep d, hstep 0]
          rw [ih seen (d + 1), ih seen (0 + 1)]
          rw [Prod.mk.injEq]
          exact ⟨rfl, by omega⟩
        · have hstep : ∀ d0 : Nat, dupStep (seen, d0) a = (a :: seen, d0) := by
            intro d0
            simp [dupStep, ha, ham]
          rw [hstep d, hstep 0]
          exact ih (a :: seen) d

/-- Specification of the duplicate counter: over truthy hashes, the
count of duplicates plus the count of newly seen distinct hashes equals
the number of hashes inspected. -/
theorem dupStep_fold_spec (hs : List String) (seen : List String) (d : Nat)
    (hne : ∀ h ∈ hs, h ≠ "") :
    (hs.foldl dupStep (seen, d)).2
        + (hs.dedup.filter (fun x => decide (x ∉ seen))).length
      = d + hs.length := by
  induction hs generalizing seen d with
  | nil => simp
  | cons a t ih =>
      have ha : a ≠ "" := hne a (by simp)
      have hne2 : ∀ h ∈ t, h ≠ "" := fun h hh => hne h (by simp [hh])
      simp only [List.foldl_cons, List.length_cons]
      by_cases ham : a ∈ seen
      · rw [show dupStep (seen, d) a = (seen, d + 1) from by simp [dupStep, ha, ham]]
        have hd : ((a :: t).dedup.filter (fun x => decide (x ∉ seen)))
            = (t.dedup.filter (fun x => decide (x ∉ seen))) := by
          by_cases hat : a ∈ t
          · rw [List.dedup_cons_of_mem hat]
          · rw [List.dedup_cons_of_not_mem hat, List.filter_cons,
              show decide (a ∉ seen) = false from by simpa using ham]
            simp
        rw [hd]
        have := ih seen (d + 1) hne2
        omega
      · rw [show dupStep (seen, d) a = (a :: seen, d) from by simp [dupStep, ha, ham]]
        have hd : ((a :: t).dedup.filter (fun x => decide (x ∉ seen))).length
            = (t.dedup.filter (fun x => decide (x ∉ a :: seen))).length + 1 := by
          by_cases hat : a ∈ t
          · rw [List.dedup_cons_of_mem hat]
            exact filter_length_cons_mem seen a t.dedup (List.nodup_dedup t)
              (List.mem_dedup.mpr hat) ham
          · rw [List.dedup_cons_of_not_mem hat, List.filter_cons,
              show decide (a ∉ seen) = true from by simpa using ham]
            rw [filter_not_mem_cons seen a t.dedup
              (fun hh => hat (List.mem_dedup.mp hh))]
            simp
        rw [hd]
        have := ih (a :: seen) d hne2
        omega

/-- The duplicate count accumulated by the validation walk equals the
duplicate counter run over all inspected hashes in scan order. -/
theorem validate_fold_dup (files : List FileLoad) (r : ValidationResults)
    (seen : List String) :
    (files.foldl validateStep (r, seen)).1.duplicate_messages
      = ((allHashes files).foldl dupStep (seen, r.duplicate_messages)).2 := by
  induction files generalizing r seen with
  | nil => simp [allHashes]
  | cons f t ih =>
      cases f with
      | loadError e =>
          simp only [List.foldl_cons, validateStep, allHashes, List.map_cons,
            List.flatten_cons, List.nil_append]
          exact ih _ seen
      | notAList p =>
          simp only [List.foldl_cons, validateStep, allHashes, List.map_cons,
            List.flatten_cons, List.nil_append]
          exact ih _ seen
      | parsed msgs =>
          simp only [List.foldl_cons, validateStep]
          rw [ih]
          have hall : allHashes (FileLoad.parsed msgs :: t)
              = msgs.map (fun m => m.meta.message_hash) ++ allHashes t := by
            simp [allHashes]
          have hmap : msgs.foldl (fun s m => dupStep s m.meta.message_hash) (seen, 0)
              = (msgs.map (fun m => m.meta.message_hash)).foldl dupStep (seen, 0) :=
            (List.foldl_map _ _ _ _).symm
          rw [hall, List.foldl_append,
            dupStep_fold_add (msgs.map fun m => m.meta.message_hash) seen
              r.duplicate_messages, ← hmap]

/-- C5: the content hash of `_generate_message_hash` depends only on
(message id, timestamp, text) — records identical there but different in
other fields or metadata hash identically — and
`validate_data_integrity` counts as duplicates, over all scanned files
for the channel, exactly the hash occurrences beyond the first
occurrence of each distinct hash. -/
theorem C5_hash_and_duplicates :
    (∀ m1 m2 : Message, m1.message_id = m2.message_id → m1.date = m2.date →
        m1.text = m2.text → generate_message_hash m1 = generate_message_hash m2) ∧
    (∀ files : List FileLoad, (∀ h ∈ allHashes files, h ≠ "") →
      (validate_data_integrity files).duplicate_messages
        = (allHashes files).length - (allHashes files).dedup.length) := by
  constructor
  · intro m1 m2 h1 h2 h3
    unfold generate_message_hash hashContent
    rw [h1, h2, h3]
  · intro files hne
    unfold validate_data_integrity
    rw [validate_fold_dup]
    show (List.foldl dupStep ([], 0) (allHashes files)).2 = _
    have hspec := dupStep_fold_spec (allHashes files) [] 0 hne
    have hfilt : (allHashes files).dedup.filter
        (fun x => decide (x ∉ ([] : List String))) = (allHashes files).dedup := by
      simp
    rw [hfilt] at hspec
    omega

/-- C5 witness: two records agreeing on (id, timestamp, text) but
differing elsewhere hash identically, and a file holding such a repeated
hash is counted as exactly one duplicate. -/
theorem C5_hash_and_duplicates_witness :
    generate_message_hash ⟨7, "chemed", "2024-01-01T00:00:00", "hello", false, none⟩
      = generate_message_hash ⟨7, "other", "2024-01-01T00:00:00", "hello", true, some 9⟩ ∧
    (validate_data_integrity
        [FileLoad.parsed
          [⟨⟨7, "chemed", "2024-01-01T00:00:00", "hello", false, none⟩,
            ⟨"s1", "chemed", "2024-01-01", "p", "aa"⟩⟩,
           ⟨⟨7, "other", "2024-01-01T00:00:00", "hello", true, some 9⟩,
            ⟨"s2", "other", "2024-01-01", "p", "aa"⟩⟩]]).duplicate_messages
      = 1 := by
  constructor
  · exact C5_hash_and_duplicates.1
      ⟨7, "chemed", "2024-01-01T00:00:00", "hello", false, none⟩
      ⟨7, "other", "2024-01-01T00:00:00", "hello", true, some 9⟩ rfl rfl rfl
  · rw [C5_hash_and_duplicates.2
      [FileLoad.parsed
        [⟨⟨7, "chemed", "2024-01-01T00:00:00", "hello", false, none⟩,
          ⟨"s1", "chemed", "2024-01-01", "p", "aa"⟩⟩,
         ⟨⟨7, "other", "2024-01-01T00:00:00", "hello", true, some 9⟩,
          ⟨"s2", "other", "2024-01-01", "p", "aa"⟩⟩]]
      (by decide)]
    decide

end Medigram
